import Mathlib

/-!
Verification of the SpeechSense authentication/token lifecycle.

Shallow embedding of the auth slice of the repository:
  * `app/models.py`        — `User`, `AuthToken`, `PasswordResetToken` rows
  * `app/auth/utils.py`    — password hashing, JWT issue/verify, expiries
  * `app/auth/dependencies.py` — `get_current_user`, `get_refresh_token_user`
  * `app/auth/router.py`   — register / login / logout / refresh /
                             forgot-password / reset-password / verify-reset-token

Conventions of the embedding:
  * Time (`datetime.utcnow()`) is a `Nat` counted in minutes and passed in as
    `now`; `get_token_expiry m = now + m` mirrors `utcnow() + timedelta(minutes=m)`.
  * Random values (`uuid.uuid4()`, `secrets.token_urlsafe(32)`, the bcrypt salt)
    are passed in as explicit string arguments.
  * The SQLAlchemy session becomes explicit state passing on a `Db` record.
    Writes become visible only at `commit()`; `get_db` (app/database.py) rolls
    back uncommitted work when a handler raises, so each handler returns the
    state as of its last completed commit.
  * `HTTPException` and uncaught Python exceptions become `Except HTTPError`.
-/

set_option maxHeartbeats 1000000
set_option maxRecDepth 10000

deriving instance DecidableEq for Except

namespace SpeechSense

/-- Wall-clock time in minutes (model of `datetime.utcnow()` values). -/
abbrev DateTime := Nat

/-- Model of `fastapi.HTTPException` (and, with status 500, of an uncaught
Python exception surfaced by the framework). -/
structure HTTPError where
  status_code : Nat
  detail : String
deriving Repr, DecidableEq

/-- `users` table (app/models.py, class User): the columns the auth flows read
or write. -/
structure User where
  id : String
  email : String
  password : String
  first_name : Option String
  last_name : Option String
  account_type : String
deriving Repr, DecidableEq

/-- `auth_tokens` table (app/models.py, class AuthToken). -/
structure AuthToken where
  id : String
  user_id : String
  token : String
  type : String
  expires_at : DateTime
deriving Repr, DecidableEq

/-- `password_reset_tokens` table (app/models.py, class PasswordResetToken). -/
structure PasswordResetToken where
  id : Nat
  user_id : String
  token : String
  expires_at : DateTime
  used : Bool
deriving Repr, DecidableEq

/-- The relational store restricted to the tables the auth flows touch. -/
structure Db where
  users : List User
  auth_tokens : List AuthToken
  reset_tokens : List PasswordResetToken
deriving Repr, DecidableEq

/-! ## app/auth/utils.py -/

/-- `SECRET_KEY = os.getenv("JWT_SECRET_KEY", "your-secret-key-change-in-production")`;
the default value stands for whatever the environment supplies. -/
def SECRET_KEY : String := "your-secret-key-change-in-production"

def ACCESS_TOKEN_EXPIRE_MINUTES : Nat := 60 * 24 * 7

def REFRESH_TOKEN_EXPIRE_MINUTES : Nat := 60 * 24 * 30

/-- Model of the external passlib `CryptContext(schemes=["bcrypt"])` hasher used
by `hash_password` (utils.py:22-24).  A bcrypt hash is a string in a
recognisable format: the version/cost marker `"$2b$12$"`, a 22-character salt,
then the checksum.  Only equality of checksums is observable, so the checksum
is modelled by the plaintext itself.  The salt is drawn fresh per call and
passed in explicitly. -/
def hash_password (password : String) (salt : String) : String :=
  "$2b$12$" ++ salt.take 22 ++ password

/-- Does the string parse as a hash of a scheme configured in the context
(`CryptContext.identify`)?  In this model: does it carry the bcrypt marker? -/
def identify_hash (h : String) : Bool :=
  h.take 7 == "$2b$12$"

/-- Model of passlib `CryptContext.verify`.  Per passlib's documented contract,
`verify` raises `UnknownHashError` (a `ValueError`) when the hash string does
not match any configured scheme's format; this is modelled as `Except.error`.
On an identifiable hash it recomputes the checksum from the embedded salt and
compares. -/
def pwd_context_verify (plain : String) (h : String) : Except String Bool :=
  if identify_hash h then
    Except.ok ((h.drop 7).drop 22 == plain)
  else
    Except.error "hash could not be identified"

/-- `verify_password` (utils.py:26-28): returns `pwd_context.verify(...)`
directly, with no exception handling around it. -/
def verify_password (plain_password : String) (hashed_password : String) :
    Except String Bool :=
  pwd_context_verify plain_password hashed_password

/-- The claims dictionary of a token: the optional `"sub"` entry and the
`"exp"` entry that `create_access_token` always sets. -/
structure JwtPayload where
  sub : Option String
  exp : DateTime
deriving Repr, DecidableEq

/-- A JWT string, abstractly: a well-signed token carries its payload and the
key it was signed with; anything else is garbage. -/
inductive JwtToken where
  | signed (payload : JwtPayload) (key : String)
  | garbage (s : String)
deriving Repr, DecidableEq

/-- `create_access_token` (utils.py:30-40) called without `expires_delta`
(as all call sites do): payload `data ∪ {exp: utcnow()+ACCESS_TOKEN_EXPIRE_MINUTES}`
signed with `SECRET_KEY`.  `data` is `{"sub": s}` at every call site, modelled
as the optional `sub` claim. -/
def create_access_token (data_sub : Option String) (now : DateTime) : JwtToken :=
  JwtToken.signed { sub := data_sub, exp := now + ACCESS_TOKEN_EXPIRE_MINUTES } SECRET_KEY

/-- `verify_token` (utils.py:50-56): `jwt.decode` checks the signature against
`SECRET_KEY` and the `exp` claim against the current time, raising `JWTError`
on any failure; the `except JWTError: return None` collapses every failure to
`None`. -/
def verify_token (token : JwtToken) (now : DateTime) : Option JwtPayload :=
  match token with
  | JwtToken.signed payload key =>
      if key == SECRET_KEY then
        if payload.exp < now then none else some payload
      else none
  | JwtToken.garbage _ => none

/-- `get_token_expiry` (utils.py:58-60). -/
def get_token_expiry (minutes : Nat) (now : DateTime) : DateTime :=
  now + minutes

/-! ## app/auth/dependencies.py -/

/-- The uniform 401 raised by `get_current_user` (dependencies.py:27-31). -/
def credentials_exception : HTTPError :=
  { status_code := 401, detail := "Could not validate credentials" }

/-- `get_current_user` (dependencies.py:19-50): verify the JWT, extract the
`sub` claim, and look the user up by id; any failure raises the same 401. -/
def get_current_user (db : Db) (credentials : JwtToken) (now : DateTime) :
    Except HTTPError User :=
  match verify_token credentials now with
  | none => Except.error credentials_exception
  | some payload =>
    match payload.sub with
    | none => Except.error credentials_exception
    | some user_id =>
      match db.users.find? (fun u => u.id == user_id) with
      | none => Except.error credentials_exception
      | some user => Except.ok user

/-- `get_refresh_token_user` (dependencies.py:68-115): resolve the refresh
token cookie against `auth_tokens`; an expired record is deleted (committed)
before the 401 is raised; otherwise the owning user is looked up.  Returns the
store alongside the result because of that committed delete. -/
def get_refresh_token_user (db : Db) (refresh_token : Option String)
    (now : DateTime) : Except HTTPError User × Db :=
  match refresh_token with
  | none => (Except.error { status_code := 401, detail := "Refresh token not provided" }, db)
  | some tok =>
    match db.auth_tokens.find? (fun t => t.token == tok) with
    | none => (Except.error { status_code := 401, detail := "Invalid refresh token" }, db)
    | some auth_token =>
      if auth_token.expires_at < now then
        (Except.error { status_code := 401, detail := "Refresh token expired" },
         { db with auth_tokens := db.auth_tokens.filter (fun t => !(t.id == auth_token.id)) })
      else
        match db.users.find? (fun u => u.id == auth_token.user_id) with
        | none => (Except.error { status_code := 401, detail := "User not found" }, db)
        | some user => (Except.ok user, db)

/-! ## app/auth/router.py -/

/-- Request body of `/register` (schemas.py, UserRegister). -/
structure UserRegister where
  email : String
  password : String
  first_name : Option String
  last_name : Option String
  account_type : String
deriving Repr, DecidableEq

/-- Request body of `/login` (schemas.py, UserLogin). -/
structure UserLogin where
  email : String
  password : String
deriving Repr, DecidableEq

/-- Request body of `/reset-password` (schemas.py, ResetPassword). -/
structure ResetPassword where
  token : String
  password : String
deriving Repr, DecidableEq

/-- Response of `/register` (schemas.py, RegisterResponse). -/
structure RegisterResponse where
  message : String
  user : User
  access_token : JwtToken
deriving Repr, DecidableEq

/-- Response of `/login` (schemas.py, LoginResponse), together with the
`refresh_token` cookie the handler sets on the HTTP response. -/
structure LoginResponse where
  message : String
  user : User
  access_token : JwtToken
  cookie_refresh_token : String
deriving Repr, DecidableEq

/-- Response of `/forgot-password` (schemas.py, ForgotPasswordResponse). -/
structure ForgotPasswordResponse where
  message : String
  reset_token : Option String
deriving Repr, DecidableEq

/-- Response of `/verify-reset-token` (schemas.py, TokenVerificationResponse). -/
structure TokenVerificationResponse where
  valid : Bool
  message : String
deriving Repr, DecidableEq

/-- Response of `/refresh` (schemas.py, RefreshTokenResponse). -/
structure RefreshTokenResponse where
  access_token : JwtToken
  message : String
deriving Repr, DecidableEq

/-- An uncaught exception inside a handler, surfaced by the framework as a
500 after `get_db` rolled the session back. -/
def internal_server_error : HTTPError :=
  { status_code := 500, detail := "Internal Server Error" }

/-- Fault-injection points for `register_user`, marking where an exception may
strike relative to the handler's two `commit()` calls (router.py:57 and 74). -/
inductive RegFault where
  | beforeUserCommit
  | beforeTokenCommit
deriving Repr, DecidableEq

/-- `register_user` (router.py:28-80).  Checks for a duplicate email, commits
the new `User` row, then creates the access token and commits the new refresh
`AuthToken` row — two separate commits.  `fault` injects an exception at the
given point; `get_db` rolls back only work not yet committed. -/
def register_user (db : Db) (user_data : UserRegister) (now : DateTime)
    (new_user_id : String) (new_token_id : String) (refresh_token : String)
    (salt : String) (fault : Option RegFault) :
    Except HTTPError RegisterResponse × Db :=
  match db.users.find? (fun u => u.email == user_data.email) with
  | some _ =>
      (Except.error { status_code := 400, detail := "Email address already registered" }, db)
  | none =>
    if fault = some RegFault.beforeUserCommit then
      (Except.error internal_server_error, db)
    else
      let db_user : User :=
        { id := new_user_id
          email := user_data.email
          password := hash_password user_data.password salt
          first_name := user_data.first_name
          last_name := user_data.last_name
          account_type := user_data.account_type }
      let db1 : Db := { db with users := db.users ++ [db_user] }
      if fault = some RegFault.beforeTokenCommit then
        (Except.error internal_server_error, db1)
      else
        let access_token := create_access_token (some db_user.id) now
        let auth_token : AuthToken :=
          { id := new_token_id
            user_id := db_user.id
            token := refresh_token
            type := "refresh"
            expires_at := get_token_expiry (60 * 24 * 30) now }
        let db2 : Db := { db1 with auth_tokens := db1.auth_tokens ++ [auth_token] }
        (Except.ok { message := "User registered successfully", user := db_user,
                     access_token := access_token }, db2)

/-- `login_user` (router.py:82-130).  Uniform 401 when the email is unknown or
the password mismatches; a raised passlib error (malformed stored hash)
propagates as a 500.  On success a fresh refresh-token row is committed and
returned as a cookie. -/
def login_user (db : Db) (user_credentials : UserLogin) (now : DateTime)
    (new_token_id : String) (refresh_token : String) :
    Except HTTPError LoginResponse × Db :=
  match db.users.find? (fun u => u.email == user_credentials.email) with
  | none =>
      (Except.error { status_code := 401, detail := "Invalid email or password" }, db)
  | some user =>
    match verify_password user_credentials.password user.password with
    | Except.error _ => (Except.error internal_server_error, db)
    | Except.ok false =>
        (Except.error { status_code := 401, detail := "Invalid email or password" }, db)
    | Except.ok true =>
      let access_token := create_access_token (some user.id) now
      let auth_token : AuthToken :=
        { id := new_token_id
          user_id := user.id
          token := refresh_token
          type := "refresh"
          expires_at := get_token_expiry (60 * 24 * 30) now }
      let db1 : Db := { db with auth_tokens := db.auth_tokens ++ [auth_token] }
      (Except.ok { message := "Login successful", user := user,
                   access_token := access_token,
                   cookie_refresh_token := refresh_token }, db1)

/-- `logout_user` (router.py:132-148).  FastAPI resolves the dependencies in
declaration order: `get_current_user` from the bearer token, then
`get_refresh_token_user` from the cookie; either failure aborts the request.
The handler then deletes every `AuthToken` row of `current_user` and commits. -/
def logout_user (db : Db) (credentials : JwtToken) (refresh_cookie : Option String)
    (now : DateTime) : Except HTTPError String × Db :=
  match get_current_user db credentials now with
  | Except.error e => (Except.error e, db)
  | Except.ok current_user =>
    match get_refresh_token_user db refresh_cookie now with
    | (Except.error e, db1) => (Except.error e, db1)
    | (Except.ok _refresh_token_user, db1) =>
        (Except.ok "Logout successful",
         { db1 with auth_tokens := db1.auth_tokens.filter (fun t => !(t.user_id == current_user.id)) })

/-- `refresh_access_token` (router.py:150-163): resolve the refresh-token
cookie and mint a new access token; no store write in the handler itself. -/
def refresh_access_token (db : Db) (refresh_cookie : Option String)
    (now : DateTime) : Except HTTPError RefreshTokenResponse × Db :=
  match get_refresh_token_user db refresh_cookie now with
  | (Except.error e, db1) => (Except.error e, db1)
  | (Except.ok current_user, db1) =>
      (Except.ok { access_token := create_access_token (some current_user.id) now,
                   message := "Token refreshed successfully" }, db1)

/-- `forgot_password` (router.py:165-202).  Same success message either way;
when the email exists, every prior reset token of that user is deleted and a
single fresh one (1-hour expiry) committed; the raw token is echoed only when
`NODE_ENV == "development"`. -/
def forgot_password (db : Db) (email : String) (now : DateTime)
    (new_reset_id : Nat) (reset_token : String) (node_env : Option String) :
    ForgotPasswordResponse × Db :=
  let success_message := "If this email exists, a password reset link has been sent"
  match db.users.find? (fun u => u.email == email) with
  | none => ({ message := success_message, reset_token := none }, db)
  | some user =>
    let password_reset : PasswordResetToken :=
      { id := new_reset_id
        user_id := user.id
        token := reset_token
        expires_at := get_token_expiry 60 now
        used := false }
    let db1 : Db :=
      { db with reset_tokens :=
          (db.reset_tokens.filter (fun t => !(t.user_id == user.id))) ++ [password_reset] }
    let development_token := if node_env == some "development" then some reset_token else none
    ({ message := success_message, reset_token := development_token }, db1)

/-- `reset_password` (router.py:204-258).  Looks up the token among unused
reset tokens; an expired one is deleted (committed) and rejected; otherwise the
password update, the `used := true` mark and the deletion of all the user's
refresh tokens are applied in one final commit. -/
def reset_password (db : Db) (reset_data : ResetPassword) (now : DateTime)
    (salt : String) : Except HTTPError String × Db :=
  match db.reset_tokens.find? (fun t => t.token == reset_data.token && t.used == false) with
  | none =>
      (Except.error { status_code := 400, detail := "Invalid or expired reset token" }, db)
  | some reset_token =>
    if reset_token.expires_at < now then
      (Except.error { status_code := 400, detail := "Reset token has expired" },
       { db with reset_tokens := db.reset_tokens.filter (fun t => !(t.id == reset_token.id)) })
    else
      match db.users.find? (fun u => u.id == reset_token.user_id) with
      | none =>
          (Except.error { status_code := 400, detail := "User not found" }, db)
      | some user =>
        let db1 : Db :=
          { users := db.users.map (fun u =>
              if u.id == user.id then { u with password := hash_password reset_data.password salt } else u)
            auth_tokens := db.auth_tokens.filter (fun t => !(t.user_id == user.id))
            reset_tokens := db.reset_tokens.map (fun t =>
              if t.id == reset_token.id then { t with used := true } else t) }
        (Except.ok "Password has been reset successfully. Please log in with your new password.", db1)

/-- `verify_reset_token` (router.py:260-285): a read-only check; it reports an
expired or unknown/used token as invalid but performs no store write. -/
def verify_reset_token (db : Db) (token : String) (now : DateTime) :
    TokenVerificationResponse × Db :=
  match db.reset_tokens.find? (fun t => t.token == token && t.used == false) with
  | none => ({ valid := false, message := "Token is invalid or expired" }, db)
  | some reset_token =>
    if reset_token.expires_at < now then
      ({ valid := false, message := "Token is invalid or expired" }, db)
    else
      ({ valid := true, message := "Token is valid" }, db)

/-! ## Concrete store states used to instantiate the theorems -/

/-- A fixed 22-character bcrypt salt. -/
def salt0 : String := "0123456789012345678901"

def alice : User :=
  { id := "u1", email := "a@b.c", password := hash_password "pw" salt0,
    first_name := none, last_name := none, account_type := "patient" }

def bob : User :=
  { id := "u2", email := "b@b.c", password := hash_password "pw2" salt0,
    first_name := none, last_name := none, account_type := "therapist" }

def alice_token : AuthToken :=
  { id := "t1", user_id := "u1", token := "rtokA", type := "refresh", expires_at := 1000 }

def bob_token : AuthToken :=
  { id := "t2", user_id := "u2", token := "rtokB", type := "refresh", expires_at := 1000 }

def alice_reset : PasswordResetToken :=
  { id := 1, user_id := "u1", token := "rstA", expires_at := 100, used := false }

/-- Two users, one refresh token each, one reset token for alice. -/
def db2users : Db :=
  { users := [alice, bob], auth_tokens := [alice_token, bob_token],
    reset_tokens := [alice_reset] }

/-- The empty store. -/
def db_empty : Db := { users := [], auth_tokens := [], reset_tokens := [] }

/-- A refresh token of alice that expired at time 10. -/
def stale_token : AuthToken :=
  { id := "t3", user_id := "u1", token := "rtokOld", type := "refresh", expires_at := 10 }

/-- Alice with only a stale refresh token. -/
def db_stale : Db :=
  { users := [alice], auth_tokens := [stale_token], reset_tokens := [alice_reset] }

/-- A registration request for an address not yet in the store. -/
def reg_data : UserRegister :=
  { email := "new@x.y", password := "pw", first_name := none, last_name := none,
    account_type := "patient" }

/-- An access token minted for alice at time 0. -/
def alice_jwt : JwtToken := create_access_token (some "u1") 0

/-! ## Theorems -/

/-- C5 counterexample: on the malformed hash string `"nothash"` (not a valid
output of `hash`), `verify_password` does not return `false` — it propagates
the hasher's `UnknownHashError`, so the claim "never throws: returns false
on a malformed hash" is false at this input. -/
theorem C5_counterexample :
    verify_password "password" "nothash" = Except.error "hash could not be identified" ∧
    verify_password "password" "nothash" ≠ Except.ok false := by
  exact ⟨rfl, by decide⟩

/-- C5 (amended): `verify_password` passes the hasher's exception through on a
hash string that is not identifiable as a bcrypt hash (the code wraps
`pwd_context.verify` in no handler); it returns a boolean without throwing
exactly on identifiable hash strings. -/
theorem C5_amended (plain h : String) :
    (identify_hash h = false →
      verify_password plain h = Except.error "hash could not be identified") ∧
    (identify_hash h = true → ∃ b, verify_password plain h = Except.ok b) := by
  constructor
  · intro hid
    simp [verify_password, pwd_context_verify, hid]
  · intro hid
    exact ⟨(h.drop 7).drop 22 == plain, by simp [verify_password, pwd_context_verify, hid]⟩

/-- Witness for `C5_amended` at concrete inputs: a malformed hash raises, a
well-formed non-matching hash yields a boolean. -/
theorem C5_amended_witness :
    verify_password "password" "nothash" = Except.error "hash could not be identified" ∧
    ∃ b, verify_password "pw" "$2b$12$0123456789012345678901pw" = Except.ok b :=
  ⟨(C5_amended "password" "nothash").1 (by decide),
   (C5_amended "pw" "$2b$12$0123456789012345678901pw").2 (by decide)⟩

/-- C7: a failed login surfaces the identical status and detail whether the
email is unknown or the password does not match the stored hash. -/
theorem C7_login_uniform_error (db : Db) (c1 c2 : UserLogin) (now1 now2 : DateTime)
    (tid1 rt1 tid2 rt2 : String) (u : User)
    (h1 : db.users.find? (fun v => v.email == c1.email) = none)
    (h2 : db.users.find? (fun v => v.email == c2.email) = some u)
    (hpw : verify_password c2.password u.password = Except.ok false) :
    (login_user db c1 now1 tid1 rt1).1 = (login_user db c2 now2 tid2 rt2).1 ∧
    (login_user db c1 now1 tid1 rt1).1 =
      Except.error { status_code := 401, detail := "Invalid email or password" } := by
  constructor
  · simp [login_user, h1, h2, hpw]
  · simp [login_user, h1]

/-- Witness for `C7_login_uniform_error`: one user in store; a login with an
unknown email and a login with the right email but wrong password produce the
same 401. -/
theorem C7_witness :
    (login_user db2users { email := "x@y.z", password := "pw" } 0 "t9" "r9").1 =
      (login_user db2users { email := "a@b.c", password := "wrong" } 3 "t8" "r8").1 :=
  (C7_login_uniform_error db2users { email := "x@y.z", password := "pw" }
    { email := "a@b.c", password := "wrong" } 0 3 "t9" "r9" "t8" "r8" alice
    (by decide) (by decide) (by decide)).1

/-- Helper: `verify_token` returns a payload exactly for tokens signed with
`SECRET_KEY` whose `exp` has not passed. -/
theorem verify_token_eq_some (cred : JwtToken) (now : DateTime) (p : JwtPayload) :
    verify_token cred now = some p ↔
      cred = JwtToken.signed p SECRET_KEY ∧ ¬ p.exp < now := by
  cases cred with
  | garbage s => simp [verify_token]
  | signed q key =>
      simp only [verify_token]
      by_cases hk : key = SECRET_KEY
      · subst hk
        by_cases he : q.exp < now
        · simp only [beq_self_eq_true, if_true, he, if_pos]
          constructor
          · intro h; cases h
          · rintro ⟨hq, hne⟩
            injection hq with h1 h2
            exact absurd (h1 ▸ he) hne
        · simp only [beq_self_eq_true, if_true, he, if_neg, not_false_iff]
          constructor
          · intro h
            injection h with h1
            subst h1
            exact ⟨rfl, he⟩
          · rintro ⟨hq, _⟩
            injection hq with h1 h2
            rw [h1]
      · have : (key == SECRET_KEY) = false := beq_eq_false_iff_ne.mpr hk
        simp [this, JwtToken.signed.injEq, hk]

/-- C6: `get_current_user` returns a user only when the bearer token's
signature and expiry checks pass and the embedded subject references a stored
`User`; a verified payload whose subject matches no stored user is rejected
with the uniform 401. -/
theorem C6_subject_must_exist (db : Db) (cred : JwtToken) (now : DateTime) :
    (∀ u, get_current_user db cred now = Except.ok u →
      ∃ p, cred = JwtToken.signed p SECRET_KEY ∧ ¬ p.exp < now ∧
        p.sub = some u.id ∧ u ∈ db.users) ∧
    (∀ p uid, verify_token cred now = some p → p.sub = some uid →
      db.users.find? (fun x => x.id == uid) = none →
      get_current_user db cred now = Except.error credentials_exception) := by
  constructor
  · intro u hu
    unfold get_current_user at hu
    split at hu
    · cases hu
    · rename_i p hv
      split at hu
      · cases hu
      · rename_i uid hs
        split at hu
        · cases hu
        · rename_i w hf
          injection hu with hw
          obtain ⟨hc, he⟩ := (verify_token_eq_some cred now p).mp hv
          have hid : w.id = uid := by simpa using List.find?_some hf
          refine ⟨p, hc, he, by rw [hs, ← hw, hid], ?_⟩
          rw [← hw]
          exact List.mem_of_find?_eq_some hf
  · intro p uid hv hs hf
    simp [get_current_user, hv, hs, hf]

/-- Witness for `C6_subject_must_exist`: a token minted for alice resolves to
alice; a validly signed token for the absent subject `"u9"` is rejected. -/
theorem C6_witness :
    get_current_user db2users (create_access_token (some "u9") 0) 5 =
      Except.error credentials_exception :=
  (C6_subject_must_exist db2users (create_access_token (some "u9") 0) 5).2
    { sub := some "u9", exp := 0 + ACCESS_TOKEN_EXPIRE_MINUTES } "u9"
    (by decide) (by decide) (by decide)

/-- C8: `forgot_password` answers with the same success message whether or not
the email belongs to a stored user; the reset token is echoed only under
`NODE_ENV=development`; and when the email exists, every prior reset token of
that user is replaced by the single fresh token expiring one hour out, with no
other table touched. -/
theorem C8_forgot_password (db : Db) (email : String) (now : DateTime)
    (rid : Nat) (rtok : String) (env : Option String) :
    ((forgot_password db email now rid rtok env).1.message =
      "If this email exists, a password reset link has been sent") ∧
    ((forgot_password db email now rid rtok env).1.reset_token ≠ none →
      env = some "development") ∧
    (∀ u, db.users.find? (fun v => v.email == email) = some u →
      (forgot_password db email now rid rtok env).2.reset_tokens =
        (db.reset_tokens.filter (fun t => !(t.user_id == u.id))) ++
          [{ id := rid, user_id := u.id, token := rtok,
             expires_at := now + 60, used := false }] ∧
      (forgot_password db email now rid rtok env).2.users = db.users ∧
      (forgot_password db email now rid rtok env).2.auth_tokens = db.auth_tokens) := by
  refine ⟨?_, ?_, ?_⟩
  · cases hf : db.users.find? (fun v => v.email == email) with
    | none => simp [forgot_password, hf]
    | some u => simp [forgot_password, hf]
  · cases hf : db.users.find? (fun v => v.email == email) with
    | none => simp [forgot_password, hf]
    | some u =>
      by_cases henv : env = some "development"
      · intro _; exact henv
      · have : (env == some "development") = false := beq_eq_false_iff_ne.mpr henv
        simp [forgot_password, hf, this]
  · intro u hf
    simp [forgot_password, hf, get_token_expiry]

/-- Witness for `C8_forgot_password`: for alice's email in development mode,
the generic message comes back and alice's old reset token is replaced by the
fresh one. -/
theorem C8_witness :
    (forgot_password db2users "a@b.c" 5 2 "newtok" (some "development")).1.message =
      "If this email exists, a password reset link has been sent" ∧
    (forgot_password db2users "a@b.c" 5 2 "newtok" (some "development")).2.reset_tokens =
      (db2users.reset_tokens.filter (fun t => !(t.user_id == alice.id))) ++
        [{ id := 2, user_id := alice.id, token := "newtok",
           expires_at := 5 + 60, used := false }] :=
  ⟨(C8_forgot_password db2users "a@b.c" 5 2 "newtok" (some "development")).1,
   ((C8_forgot_password db2users "a@b.c" 5 2 "newtok" (some "development")).2.2
      alice (by decide)).1⟩

/-- Helper: when `get_refresh_token_user` resolves a user, it has performed no
store write. -/
theorem get_refresh_token_user_ok_state (db : Db) (cookie : Option String)
    (now : DateTime) (u : User) (db2 : Db)
    (h : get_refresh_token_user db cookie now = (Except.ok u, db2)) :
    db2 = db := by
  unfold get_refresh_token_user at h
  split at h
  · simp at h
  · split at h
    · simp at h
    · split at h
      · simp at h
      · split at h
        · simp at h
        · exact (congrArg Prod.snd h).symm

/-- C9: a successful login appends exactly one new refresh-token row (leaving
every pre-existing row of every user unchanged), and a successful refresh
performs no store write at all. -/
theorem C9_login_refresh_frame (db : Db) (cred : UserLogin) (cookie : Option String)
    (now now2 : DateTime) (tid rtok : String) :
    (∀ out db', login_user db cred now tid rtok = (Except.ok out, db') →
      db'.auth_tokens = db.auth_tokens ++
        [{ id := tid, user_id := out.user.id, token := rtok, type := "refresh",
           expires_at := now + 60 * 24 * 30 }] ∧
      db'.users = db.users ∧ db'.reset_tokens = db.reset_tokens) ∧
    (∀ out db', refresh_access_token db cookie now2 = (Except.ok out, db') →
      db' = db) := by
  constructor
  · intro out db' h
    unfold login_user at h
    split at h
    · simp at h
    · rename_i u hf
      split at h
      · simp at h
      · simp at h
      · simp only [Prod.mk.injEq, Except.ok.injEq] at h
        obtain ⟨h1, h2⟩ := h
        refine ⟨?_, ?_, ?_⟩
        · rw [← h2, ← h1]
          simp [get_token_expiry]
        · rw [← h2]
        · rw [← h2]
  · intro out db' h
    unfold refresh_access_token at h
    split at h
    · simp at h
    · rename_i cu db1 hres
      simp only [Prod.mk.injEq, Except.ok.injEq] at h
      rw [← h.2]
      exact get_refresh_token_user_ok_state db cookie now2 cu db1 hres

/-- Witness for `C9_login_refresh_frame`: alice logs in successfully, adding
one row; a refresh with bob's valid cookie leaves the store untouched. -/
theorem C9_witness :
    (login_user db2users { email := "a@b.c", password := "pw" } 0 "t9" "r9").2.auth_tokens =
      db2users.auth_tokens ++
        [{ id := "t9", user_id := "u1", token := "r9", type := "refresh",
           expires_at := 0 + 60 * 24 * 30 }] ∧
    (refresh_access_token db2users (some "rtokB") 5).2 = db2users := by
  constructor
  · exact ((C9_login_refresh_frame db2users { email := "a@b.c", password := "pw" }
        (some "rtokB") 0 5 "t9" "r9").1
      { message := "Login successful", user := alice,
        access_token := create_access_token (some "u1") 0, cookie_refresh_token := "r9" }
      (login_user db2users { email := "a@b.c", password := "pw" } 0 "t9" "r9").2
      (by decide)).1
  · exact (C9_login_refresh_frame db2users { email := "a@b.c", password := "pw" }
        (some "rtokB") 0 5 "t9" "r9").2
      { access_token := create_access_token (some "u2") 5,
        message := "Token refreshed successfully" }
      (refresh_access_token db2users (some "rtokB") 5).2
      (by decide)

/-- C4 counterexample: at time 200 the reset token `"rstA"` (unused, expired
at 100) is observed by `verify_reset_token` — the lookup finds it and it is
reported invalid — yet the record is NOT deleted: the store comes back
unchanged, still holding the expired row. -/
theorem C4_counterexample :
    db2users.reset_tokens.find? (fun t => t.token == "rstA" && t.used == false) =
      some alice_reset ∧
    alice_reset.expires_at < 200 ∧
    (verify_reset_token db2users "rstA" 200).1.valid = false ∧
    (verify_reset_token db2users "rstA" 200).2 = db2users ∧
    alice_reset ∈ (verify_reset_token db2users "rstA" 200).2.reset_tokens := by
  decide

/-- C4 (amended): an expired refresh token is rejected and eagerly deleted by
the refresh dependency, and an expired reset token is rejected and eagerly
deleted by the reset-password flow; the verify-reset-token flow, however,
rejects an expired token but never writes to the store, so the expired record
survives there. -/
theorem C4_amended (db : Db) (now : DateTime) :
    (∀ tok tokRec, db.auth_tokens.find? (fun t => t.token == tok) = some tokRec →
      tokRec.expires_at < now →
      get_refresh_token_user db (some tok) now =
        (Except.error { status_code := 401, detail := "Refresh token expired" },
         { db with auth_tokens := db.auth_tokens.filter (fun t => !(t.id == tokRec.id)) })) ∧
    (∀ rd rt salt,
      db.reset_tokens.find? (fun t => t.token == rd.token && t.used == false) = some rt →
      rt.expires_at < now →
      reset_password db rd now salt =
        (Except.error { status_code := 400, detail := "Reset token has expired" },
         { db with reset_tokens := db.reset_tokens.filter (fun t => !(t.id == rt.id)) })) ∧
    (∀ tok, (verify_reset_token db tok now).2 = db) := by
  refine ⟨?_, ?_, ?_⟩
  · intro tok tokRec hf he
    simp [get_refresh_token_user, hf, he]
  · intro rd rt salt hf he
    unfold reset_password
    rw [hf]
    simp [he]
  · intro tok
    unfold verify_reset_token
    cases hf : db.reset_tokens.find? (fun t => t.token == tok && t.used == false) with
    | none => rfl
    | some rt =>
      by_cases he : rt.expires_at < now
      · simp [he]
      · simp [he]

/-- Witness for `C4_amended`: alice's stale refresh token is deleted on the
failed refresh at time 50; her expired reset token is deleted on the failed
reset at time 200; verify-reset-token leaves the store as it was. -/
theorem C4_amended_witness :
    get_refresh_token_user db_stale (some "rtokOld") 50 =
      (Except.error { status_code := 401, detail := "Refresh token expired" },
       { db_stale with
          auth_tokens := db_stale.auth_tokens.filter (fun t => !(t.id == stale_token.id)) }) ∧
    reset_password db2users { token := "rstA", password := "npw" } 200 salt0 =
      (Except.error { status_code := 400, detail := "Reset token has expired" },
       { db2users with
          reset_tokens := db2users.reset_tokens.filter (fun t => !(t.id == alice_reset.id)) }) ∧
    (verify_reset_token db2users "rstA" 200).2 = db2users :=
  ⟨(C4_amended db_stale 50).1 "rtokOld" stale_token (by decide) (by decide),
   (C4_amended db2users 200).2.1 { token := "rstA", password := "npw" } alice_reset salt0
     (by decide) (by decide),
   (C4_amended db2users 200).2.2 "rstA"⟩

/-- C1 counterexample: registering a fresh email against the empty store with
a failure striking while the refresh-token record is being created (i.e. after
the duplicate-email check and after the first commit): the flow fails, no
AuthToken row exists — but the new User row IS persisted, contradicting the
all-or-nothing claim. -/
theorem C1_counterexample :
    (register_user db_empty reg_data 0 "u7" "t7" "r7" salt0
        (some RegFault.beforeTokenCommit)).1 = Except.error internal_server_error ∧
    (register_user db_empty reg_data 0 "u7" "t7" "r7" salt0
        (some RegFault.beforeTokenCommit)).2.users ≠ [] ∧
    (register_user db_empty reg_data 0 "u7" "t7" "r7" salt0
        (some RegFault.beforeTokenCommit)).2.auth_tokens = [] := by
  decide

/-- C1 (amended): the register flow runs in two transactional scopes, not one:
the User row is committed before the AuthToken row. A failure before the first
commit persists nothing; a failure after it — e.g. while creating the
refresh-token record — leaves the new User row persisted and no AuthToken row.
The fault-free run commits both rows. -/
theorem C1_amended (db : Db) (d : UserRegister) (now : DateTime)
    (uid tid rtok salt : String)
    (hdup : db.users.find? (fun u => u.email == d.email) = none) :
    (register_user db d now uid tid rtok salt (some RegFault.beforeUserCommit) =
      (Except.error internal_server_error, db)) ∧
    ((register_user db d now uid tid rtok salt (some RegFault.beforeTokenCommit)).1 =
      Except.error internal_server_error ∧
     (register_user db d now uid tid rtok salt (some RegFault.beforeTokenCommit)).2.users =
      db.users ++ [{ id := uid, email := d.email, password := hash_password d.password salt,
                     first_name := d.first_name, last_name := d.last_name,
                     account_type := d.account_type }] ∧
     (register_user db d now uid tid rtok salt (some RegFault.beforeTokenCommit)).2.auth_tokens =
      db.auth_tokens ∧
     (register_user db d now uid tid rtok salt (some RegFault.beforeTokenCommit)).2.reset_tokens =
      db.reset_tokens) ∧
    (register_user db d now uid tid rtok salt none).2.users =
      db.users ++ [{ id := uid, email := d.email, password := hash_password d.password salt,
                     first_name := d.first_name, last_name := d.last_name,
                     account_type := d.account_type }] ∧
    (register_user db d now uid tid rtok salt none).2.auth_tokens =
      db.auth_tokens ++ [{ id := tid, user_id := uid, token := rtok, type := "refresh",
                           expires_at := now + 60 * 24 * 30 }] := by
  refine ⟨?_, ⟨?_, ?_, ?_, ?_⟩, ?_, ?_⟩
  all_goals simp [register_user, hdup, get_token_expiry]

/-- Witness for `C1_amended` on the empty store and a fresh email. -/
theorem C1_amended_witness :
    register_user db_empty reg_data 0 "u7" "t7" "r7" salt0
        (some RegFault.beforeUserCommit) =
      (Except.error internal_server_error, db_empty) ∧
    (register_user db_empty reg_data 0 "u7" "t7" "r7" salt0
        (some RegFault.beforeTokenCommit)).2.auth_tokens = db_empty.auth_tokens :=
  ⟨(C1_amended db_empty reg_data 0 "u7" "t7" "r7" salt0 (by decide)).1,
   (C1_amended db_empty reg_data 0 "u7" "t7" "r7" salt0 (by decide)).2.1.2.2.1⟩

/-- C10: a successful logout deletes exactly the refresh-token rows whose
`user_id` equals the id of the user identified by the ACCESS token; every row
of any other user — in particular the presented cookie's row when it belongs
to someone else — survives. -/
theorem C10_logout_scope (db : Db) (cred : JwtToken) (cookie : Option String)
    (now : DateTime) (m : String) (db' : Db)
    (hok : logout_user db cred cookie now = (Except.ok m, db')) :
    ∃ u, get_current_user db cred now = Except.ok u ∧
      db'.users = db.users ∧ db'.reset_tokens = db.reset_tokens ∧
      db'.auth_tokens = db.auth_tokens.filter (fun t => !(t.user_id == u.id)) ∧
      ∀ t ∈ db.auth_tokens, t.user_id ≠ u.id → t ∈ db'.auth_tokens := by
  unfold logout_user at hok
  split at hok
  · simp at hok
  · rename_i u hcur
    split at hok
    · simp at hok
    · rename_i ru db1 href
      simp only [Prod.mk.injEq, Except.ok.injEq] at hok
      obtain ⟨hm, hdb⟩ := hok
      have hdb1 : db1 = db := get_refresh_token_user_ok_state db cookie now ru db1 href
      subst hdb1
      refine ⟨u, hcur, ?_, ?_, ?_, ?_⟩
      · rw [← hdb]
      · rw [← hdb]
      · rw [← hdb]
      · intro t ht hne
        rw [← hdb]
        exact List.mem_filter.mpr ⟨ht, by simp [hne]⟩

/-- Witness for `C10_logout_scope`: alice's access token plus bob's valid
cookie; the logout succeeds and deletes only rows with alice's user id, so
bob's rows (the presented one included) survive. -/
theorem C10_witness :
    ∃ u, get_current_user db2users alice_jwt 5 = Except.ok u ∧
      (logout_user db2users alice_jwt (some "rtokB") 5).2.users = db2users.users ∧
      (logout_user db2users alice_jwt (some "rtokB") 5).2.reset_tokens =
        db2users.reset_tokens ∧
      (logout_user db2users alice_jwt (some "rtokB") 5).2.auth_tokens =
        db2users.auth_tokens.filter (fun t => !(t.user_id == u.id)) ∧
      ∀ t ∈ db2users.auth_tokens, t.user_id ≠ u.id →
        t ∈ (logout_user db2users alice_jwt (some "rtokB") 5).2.auth_tokens :=
  C10_logout_scope db2users alice_jwt (some "rtokB") 5 "Logout successful"
    (logout_user db2users alice_jwt (some "rtokB") 5).2 (by decide)

/-- C2: logout succeeds only when both the access token and the refresh-token
cookie resolve; on success every refresh-token row of the authenticated user
is deleted, and any token string whose stored rows all belonged to that user
is afterwards rejected by the refresh flow. -/
theorem C2_logout_global (db : Db) (cred : JwtToken) (cookie : Option String)
    (now now2 : DateTime) (m : String) (db' : Db)
    (hok : logout_user db cred cookie now = (Except.ok m, db')) :
    ∃ u ru, get_current_user db cred now = Except.ok u ∧
      (get_refresh_token_user db cookie now).1 = Except.ok ru ∧
      (∀ t ∈ db'.auth_tokens, t.user_id ≠ u.id) ∧
      (∀ tok, (∀ t ∈ db.auth_tokens, t.token = tok → t.user_id = u.id) →
        (refresh_access_token db' (some tok) now2).1 =
          Except.error { status_code := 401, detail := "Invalid refresh token" }) := by
  unfold logout_user at hok
  split at hok
  · simp at hok
  · rename_i u hcur
    split at hok
    · simp at hok
    · rename_i ru db1 href
      simp only [Prod.mk.injEq, Except.ok.injEq] at hok
      obtain ⟨hm, hdb⟩ := hok
      have hdb1 : db1 = db := get_refresh_token_user_ok_state db cookie now ru db1 href
      rw [hdb1] at hdb
      have hmem : ∀ t ∈ db'.auth_tokens, t.user_id ≠ u.id := by
        intro t ht
        rw [← hdb] at ht
        have := (List.mem_filter.mp ht).2
        simpa using this
      refine ⟨u, ru, hcur, by rw [href], hmem, ?_⟩
      intro tok htok
      have hnone : db'.auth_tokens.find? (fun t => t.token == tok) = none := by
        apply List.find?_eq_none.mpr
        intro t ht
        simp only [beq_iff_eq]
        intro hteq
        have ht' : t ∈ db.auth_tokens := by
          rw [← hdb] at ht
          exact (List.mem_filter.mp ht).1
        exact hmem t ht (htok t ht' hteq)
      simp [refresh_access_token, get_refresh_token_user, hnone]

/-- Witness for `C2_logout_global`: alice logs out with her own valid cookie
`"rtokA"`; afterwards that previously valid refresh token is rejected by
`/refresh`. -/
theorem C2_witness :
    (refresh_access_token (logout_user db2users alice_jwt (some "rtokA") 5).2
        (some "rtokA") 6).1 =
      Except.error { status_code := 401, detail := "Invalid refresh token" } := by
  obtain ⟨u, ru, h1, h2, h3, h4⟩ :=
    C2_logout_global db2users alice_jwt (some "rtokA") 5 6 "Logout successful"
      (logout_user db2users alice_jwt (some "rtokA") 5).2 (by decide)
  have hu : u = alice := by
    have halice : get_current_user db2users alice_jwt 5 = Except.ok alice := by decide
    rw [halice] at h1
    exact (Except.ok.inj h1).symm
  exact h4 "rtokA" (by rw [hu]; decide)

/-- C3: reset-password with a used (or unknown) token is rejected leaving the
store untouched; with an expired token it is rejected without a password
change; with a fresh token it succeeds exactly once: the user's stored hash
becomes the hash of the new password, the token is marked used — so a second
attempt with the same token string fails and writes nothing — and every
refresh-token row of that user is deleted. -/
theorem C3_reset_password (db : Db) (rd : ResetPassword) (now : DateTime) (salt : String) :
    ((∀ t ∈ db.reset_tokens, t.token = rd.token → t.used = true) →
      reset_password db rd now salt =
        (Except.error { status_code := 400, detail := "Invalid or expired reset token" }, db)) ∧
    (∀ rt, db.reset_tokens.find? (fun t => t.token == rd.token && t.used == false) = some rt →
      rt.expires_at < now →
      (reset_password db rd now salt).1 =
        Except.error { status_code := 400, detail := "Reset token has expired" } ∧
      (reset_password db rd now salt).2.users = db.users) ∧
    (∀ rt u, db.reset_tokens.find? (fun t => t.token == rd.token && t.used == false) = some rt →
      ¬ rt.expires_at < now →
      db.users.find? (fun v => v.id == rt.user_id) = some u →
      (∀ t ∈ db.reset_tokens, t.token = rd.token → t.id = rt.id) →
      (reset_password db rd now salt).1 =
        Except.ok "Password has been reset successfully. Please log in with your new password." ∧
      (reset_password db rd now salt).2.users =
        db.users.map (fun v =>
          if v.id == u.id then { v with password := hash_password rd.password salt } else v) ∧
      (reset_password db rd now salt).2.reset_tokens =
        db.reset_tokens.map (fun t => if t.id == rt.id then { t with used := true } else t) ∧
      (reset_password db rd now salt).2.auth_tokens =
        db.auth_tokens.filter (fun t => !(t.user_id == u.id)) ∧
      (∀ rd2 now2 salt2, rd2.token = rd.token →
        reset_password ((reset_password db rd now salt).2) rd2 now2 salt2 =
          (Except.error { status_code := 400, detail := "Invalid or expired reset token" },
           (reset_password db rd now salt).2))) := by
  refine ⟨?_, ?_, ?_⟩
  · intro hused
    have hnone : db.reset_tokens.find? (fun t => t.token == rd.token && t.used == false) = none := by
      apply List.find?_eq_none.mpr
      intro t ht
      simp only [Bool.and_eq_true, beq_iff_eq, not_and]
      intro h1 h2
      have := hused t ht h1
      rw [this] at h2
      simp at h2
    unfold reset_password
    rw [hnone]
  · intro rt hf he
    unfold reset_password
    rw [hf]
    simp [he]
  · intro rt u hf he hu huniq
    have hstate : (reset_password db rd now salt).2 =
        { users := db.users.map (fun v =>
            if v.id == u.id then { v with password := hash_password rd.password salt } else v)
          auth_tokens := db.auth_tokens.filter (fun t => !(t.user_id == u.id))
          reset_tokens := db.reset_tokens.map (fun t =>
            if t.id == rt.id then { t with used := true } else t) } := by
      unfold reset_password
      rw [hf]
      simp [he, hu]
    refine ⟨?_, ?_, ?_, ?_, ?_⟩
    · unfold reset_password
      rw [hf]
      simp [he, hu]
    · rw [hstate]
    · rw [hstate]
    · rw [hstate]
    · intro rd2 now2 salt2 htok2
      have hnone2 : (db.reset_tokens.map (fun t =>
            if t.id == rt.id then { t with used := true } else t)).find?
          (fun t => t.token == rd2.token && t.used == false) = none := by
        apply List.find?_eq_none.mpr
        intro t' ht'
        simp only [List.mem_map] at ht'
        obtain ⟨t, ht, rfl⟩ := ht'
        by_cases hid : (t.id == rt.id) = true
        · simp [hid]
        · simp only [hid, if_neg, Bool.false_eq_true, Bool.and_eq_true, beq_iff_eq,
            Bool.not_eq_true, not_and]
          intro h1 h2
          exact absurd (beq_iff_eq.mpr (huniq t ht (h1.trans htok2))) (by simpa using hid)
      rw [hstate]
      unfold reset_password
      rw [hnone2]

/-- Witness for `C3_reset_password`: alice resets her password at time 5 with
the fresh token `"rstA"`; the call succeeds, and an immediate second reset
with the same token string is rejected and writes nothing. -/
theorem C3_witness :
    (reset_password db2users { token := "rstA", password := "npw" } 5 salt0).1 =
      Except.ok "Password has been reset successfully. Please log in with your new password." ∧
    reset_password ((reset_password db2users { token := "rstA", password := "npw" } 5 salt0).2)
        { token := "rstA", password := "npw2" } 6 salt0 =
      (Except.error { status_code := 400, detail := "Invalid or expired reset token" },
       (reset_password db2users { token := "rstA", password := "npw" } 5 salt0).2) := by
  have h := (C3_reset_password db2users { token := "rstA", password := "npw" } 5 salt0).2.2
    alice_reset alice (by decide) (by decide) (by decide) (by decide)
  exact ⟨h.1, h.2.2.2.2 { token := "rstA", password := "npw2" } 6 salt0 (by decide)⟩

end SpeechSense
